import Mathlib

/-!
Verification of the SHA3-256 gadget in `src/crates/bellpepper/src/gadgets/sha3.rs`.

The Rust source is shallowly embedded: `Boolean` wires become an inductive
type mirroring `bellpepper_core`'s `Boolean` enum, `Vec<Boolean>` becomes
`List Boolean`, machine integers become `Nat` (with explicit `% 2 ^ 64`
where 64-bit overflow matters), and each Rust function becomes a Lean
function following the source statement by statement.
-/

namespace Sha3Gadget

/-- Embedding of `bellpepper_core`'s `Boolean` enum (an external collaborator
of the gadget): a wire is either an allocated bit, the negation of an
allocated bit, or a constant.  Allocated bits are abstracted by their
variable index. -/
inductive Boolean where
  | var : Nat → Boolean
  | negVar : Nat → Boolean
  | constant : Bool → Boolean
deriving DecidableEq, Repr

/-- `MD_SIZE` from the source: the size of the expected output, 256 bits. -/
def MD_SIZE : Nat := 256

/-- `BIT_RATE` from the source: `1600 - 256 * 2 = 1088`. -/
def BIT_RATE : Nat := 1088

/-- `ROUND_CONSTANTS` from the source: the 24 Keccak-f[1600] round
constants, one 64-bit value per round. -/
def ROUND_CONSTANTS : List Nat :=
  [0x0000000000000001, 0x0000000000008082, 0x800000000000808a,
   0x8000000080008000, 0x000000000000808b, 0x0000000080000001,
   0x8000000080008081, 0x8000000000008009, 0x000000000000008a,
   0x0000000000000088, 0x0000000080008009, 0x000000008000000a,
   0x000000008000808b, 0x800000000000008b, 0x8000000000008089,
   0x8000000000008003, 0x8000000000008002, 0x8000000000000080,
   0x000000000000800a, 0x800000008000000a, 0x8000000080008081,
   0x8000000000008080, 0x0000000080000001, 0x8000000080008008]

/-- The zero-fill count computed inside `pad10_1`:
`(BIT_RATE - 1 - input.len() % BIT_RATE) % BIT_RATE`, where `len1` is
`input.len()` at that point of the function, i.e. the length *after* the
first `'1'` bit has been pushed.  `usize` subtraction never underflows here
because `len1 % BIT_RATE ≤ BIT_RATE - 1`, so `Nat` subtraction is exact. -/
def zero_bits_to_append (len1 : Nat) : Nat :=
  (BIT_RATE - 1 - len1 % BIT_RATE) % BIT_RATE

/-- Embedding of `pad10_1` from the source.  The Rust function mutates its
`Vec<Boolean>` argument in place by pushing wires; the embedding returns the
final value of the vector: push `constant(true)`, compute the zero count
from the *current* length, push that many `constant(false)`, push a final
`constant(true)`. -/
def pad10_1 (input : List Boolean) : List Boolean :=
  let withOne := input ++ [Boolean.constant true]
  let zeros := zero_bits_to_append withOne.length
  withOne ++ List.replicate zeros (Boolean.constant false) ++ [Boolean.constant true]

/-- The padded vector built inside `sha3` (the source copies the caller's
slice with `input.to_vec()` and pads the copy). -/
def sha3_padded (input : List Boolean) : List Boolean :=
  pad10_1 input

/-- The predicate of the `assert!` in `sha3`:
`assert!(padded.len() % 512 == 0)`.  Note the source checks modulo `512`,
not modulo `BIT_RATE`. -/
def sha3_assertion (input : List Boolean) : Prop :=
  (sha3_padded input).length % 512 = 0

instance (input : List Boolean) : Decidable (sha3_assertion input) := by
  unfold sha3_assertion; infer_instance

/-- Fuel-driven splitting of a list into consecutive chunks of `k` elements,
the last chunk possibly shorter: the image of Rust's `slice::chunks`.
The fuel argument only serves termination; `chunksOf` instantiates it so
that it never runs out. -/
def chunksOfAux (k : Nat) : Nat → List α → List (List α)
  | _, [] => []
  | 0, _ => []
  | fuel + 1, l => l.take k :: chunksOfAux k fuel (l.drop k)

/-- `l.chunks(k)` from Rust (for `k > 0`): consecutive `k`-element chunks,
last chunk possibly shorter. -/
def chunksOf (k : Nat) (l : List α) : List (List α) :=
  chunksOfAux k l.length l

/-- The block decomposition performed by the absorb loop in `sha3`:
`padded.chunks(512)` — the source slices 512-bit chunks, not
`BIT_RATE`-bit ones. -/
def sha3_blocks (input : List Boolean) : List (List Boolean) :=
  chunksOf 512 (sha3_padded input)

/-! ## Value-level Keccak model

The permutation, absorb and squeeze stages are TODO stubs in the source
(`sha3` contains only `// TODO` comments for them), so they are modelled
from the spec at the value level: a wire's constrained bit value is a
`Bool`, a lane is a `Nat` below `2 ^ 64`, the state is a list of 25 lanes
indexed by `x + 5 * y`. -/

/-- All-ones 64-bit mask, used to express bitwise NOT on a lane. -/
def mask64 : Nat := 2 ^ 64 - 1

/-- Left rotation of a 64-bit lane by `n` positions. -/
def rotl64 (x n : Nat) : Nat :=
  ((x <<< (n % 64)) ||| (x >>> (64 - n % 64))) % 2 ^ 64

/-- Lane `(x, y)` of a 25-lane state list, coordinates taken modulo 5. -/
def lane (s : List Nat) (x y : Nat) : Nat :=
  s.getD (x % 5 + 5 * (y % 5)) 0

/-- Modelled from the spec: the theta step — XOR into each lane the parity
of column `x - 1` and the parity of column `x + 1` rotated by 1. -/
def theta (s : List Nat) : List Nat :=
  let c := (List.range 5).map fun x =>
    lane s x 0 ^^^ lane s x 1 ^^^ lane s x 2 ^^^ lane s x 3 ^^^ lane s x 4
  let d := (List.range 5).map fun x =>
    c.getD ((x + 4) % 5) 0 ^^^ rotl64 (c.getD ((x + 1) % 5) 0) 1
  (List.range 25).map fun i => s.getD i 0 ^^^ d.getD (i % 5) 0

/-- The standard's per-lane rotation offsets for rho, one row per `y`
coordinate, row `y` listing the offsets of lanes `(0, y), …, (4, y)`
(offset 0 for lane `(0,0)`). -/
def rhoOffsetRows : List (List Nat) :=
  [[0, 1, 62, 28, 27],
   [36, 44, 6, 55, 20],
   [3, 10, 43, 25, 39],
   [41, 45, 15, 21, 8],
   [18, 2, 61, 56, 14]]

/-- Rotation offset of the lane at flat index `x + 5 * y`. -/
def rhoOffset (i : Nat) : Nat :=
  (rhoOffsetRows.getD (i / 5) []).getD (i % 5) 0

/-- Modelled from the spec: the rho step — rotate each lane by its fixed
offset. -/
def rho (s : List Nat) : List Nat :=
  (List.range 25).map fun i => rotl64 (s.getD i 0) (rhoOffset i)

/-- Modelled from the spec: the pi step — relabel lane positions by
`(x, y) → (y, 2x + 3y mod 5)`; equivalently the output lane `(X, Y)` is the
input lane `(X + 3Y mod 5, X)`. -/
def piStep (s : List Nat) : List Nat :=
  (List.range 25).map fun i => lane s (i % 5 + 3 * (i / 5)) (i % 5)

/-- Modelled from the spec: the chi step —
`lane(x,y) XOR ((NOT lane(x+1,y)) AND lane(x+2,y))`. -/
def chi (s : List Nat) : List Nat :=
  (List.range 25).map fun i =>
    lane s (i % 5) (i / 5) ^^^
      ((lane s (i % 5 + 1) (i / 5) ^^^ mask64) &&& lane s (i % 5 + 2) (i / 5))

/-- Modelled from the spec: the iota step — XOR the round constant into
lane `(0,0)` only. -/
def iota (rc : Nat) (s : List Nat) : List Nat :=
  (List.range 25).map fun i => if i = 0 then s.getD 0 0 ^^^ rc else s.getD i 0

/-- One Keccak round: theta, rho, pi, chi, iota in this fixed order. -/
def keccakRound (s : List Nat) (rc : Nat) : List Nat :=
  iota rc (chi (piStep (rho (theta s))))

/-- Modelled from the spec: the full Keccak-f[1600] permutation — 24 rounds,
round `i` using `ROUND_CONSTANTS[i]`. -/
def keccakF (s : List Nat) : List Nat :=
  ROUND_CONSTANTS.foldl keccakRound s

/-- Pack a list of bits (least-significant first) into a lane value. -/
def laneOfBits (bits : List Bool) : Nat :=
  bits.foldr (fun b acc => (if b then 1 else 0) + 2 * acc) 0

/-- Modelled from the spec: XOR one rate-sized block into the first 17
lanes of the state, leaving the 8 capacity lanes untouched. -/
def absorbBlock (s : List Nat) (block : List Bool) : List Nat :=
  (List.range 25).map fun i =>
    if i < 17 then s.getD i 0 ^^^ laneOfBits ((block.drop (64 * i)).take 64)
    else s.getD i 0

/-- Modelled from the spec: absorb the blocks in order into the
zero-initialized state, one full permutation after each block. -/
def absorb (blocks : List (List Bool)) : List Nat :=
  blocks.foldl (fun st b => keccakF (absorbBlock st b)) (List.replicate 25 0)

/-- Modelled from the spec: the squeeze stage — the first 256 bits of the
rate portion of the final state, bit `i` being bit `i % 64` of lane
`i / 64`. -/
def squeeze (s : List Nat) : List Bool :=
  (List.range 256).map fun i => (s.getD (i / 64) 0).testBit (i % 64)

/-- Value-level image of `pad10_1`: the constrained values of the wires it
produces, when the input wires carry the given bit values. -/
def padBits (input : List Bool) : List Bool :=
  let withOne := input ++ [true]
  withOne ++ List.replicate (zero_bits_to_append withOne.length) false ++ [true]

/-- Modelled from the spec: the digest values computed by the complete
sponge — pad with pad10*1, split into rate-sized (1088-bit) blocks, absorb
with a permutation after each block, squeeze 256 bits.  The padding stage
is the one implemented in the source (`pad10_1`); the rest follows the
spec because the source leaves it as TODO stubs. -/
def sha3Spec (input : List Bool) : List Bool :=
  squeeze (absorb (chunksOf BIT_RATE (padBits input)))

/-- Bits of one byte, least-significant bit first (the SHA-3 convention for
byte-aligned messages). -/
def byteToBits (b : Nat) : List Bool :=
  (List.range 8).map fun i => b.testBit i

/-- Bit string of a byte string, each byte contributing its bits
least-significant first. -/
def bytesToBits (bs : List Nat) : List Bool :=
  (bs.map byteToBits).flatten

/-- The canonical SHA3-256 digest of the empty byte string,
`a7ffc6f8bf1ed76651c14756a061d662f580ff4de43b49fa82d80a4b80f8434a`. -/
def SHA3_256_EMPTY_BYTES : List Nat :=
  [0xa7, 0xff, 0xc6, 0xf8, 0xbf, 0x1e, 0xd7, 0x66,
   0x51, 0xc1, 0x47, 0x56, 0xa0, 0x61, 0xd6, 0x62,
   0xf5, 0x80, 0xff, 0x4d, 0xe4, 0x3b, 0x49, 0xfa,
   0x82, 0xd8, 0x0a, 0x4b, 0x80, 0xf8, 0x43, 0x4a]

/-- The Keccak-256 digest of the empty byte string (the original Keccak
submission's 256-bit variant, whose padding is plain pad10*1 with no
domain-separation suffix):
`c5d2460186f7233c927e7db2dcc703c0e500b653ca82273b7bfad8045d85a470`. -/
def KECCAK_256_EMPTY_BYTES : List Nat :=
  [0xc5, 0xd2, 0x46, 0x01, 0x86, 0xf7, 0x23, 0x3c,
   0x92, 0x7e, 0x7d, 0xb2, 0xdc, 0xc7, 0x03, 0xc0,
   0xe5, 0x00, 0xb6, 0x53, 0xca, 0x82, 0x27, 0x3b,
   0x7b, 0xfa, 0xd8, 0x04, 0x5d, 0x85, 0xa4, 0x70]

/-- One step of the degree-8 LFSR `x^8 + x^6 + x^5 + x^4 + 1` used by the
standard (FIPS 202, Algorithm 5) to derive the round constants. -/
def rcStep (r : Nat) : Nat :=
  let r2 := r <<< 1
  if r2.testBit 8 then r2 ^^^ 0x171 else r2

/-- The LFSR register after `t` steps from the initial value 1; the
standard's bit `rc(t)` is its least-significant bit. -/
def rcIter : Nat → Nat
  | 0 => 1
  | t + 1 => rcStep (rcIter t)

/-- Round constant `i` of Keccak-f[1600] as the standard derives it:
bit `2 ^ j - 1` of constant `i` is `rc(j + 7 i)` for `j = 0, …, 6`. -/
def standardRoundConstant (i : Nat) : Nat :=
  (List.range 7).foldl
    (fun acc j => acc ||| ((if (rcIter (j + 7 * i)).testBit 0 then 1 else 0) <<< (2 ^ j - 1)))
    0

/-! ## Supporting lemmas -/

/-- `pad10_1` written as a single append: the input, the first constant-true
bit, the zero fill computed from the length after that first bit, the final
constant-true bit. -/
theorem pad10_1_eq (input : List Boolean) :
    pad10_1 input = input ++ Boolean.constant true ::
      (List.replicate (zero_bits_to_append (input.length + 1)) (Boolean.constant false) ++
        [Boolean.constant true]) := by
  simp [pad10_1]

/-- Length of the padded vector. -/
theorem pad10_1_length (input : List Boolean) :
    (pad10_1 input).length = input.length + 2 + zero_bits_to_append (input.length + 1) := by
  rw [pad10_1_eq]
  simp
  omega

/-! ## Claim theorems -/

set_option maxRecDepth 100000

/-- Claim C1: the claim says the assertion inside `sha3` checks that the
padded length is a multiple of the rate and always succeeds.  The padding
stage does guarantee a multiple of `BIT_RATE = 1088`, but the source's
assertion is `assert!(padded.len() % 512 == 0)`, and `1088 % 512 = 64`:
already for the empty input the padded length is 1088 and the assertion
fails, so `sha3` panics.  This theorem exhibits the failure. -/
theorem C1_sha3_assertion_fails :
    (sha3_padded []).length = 1088 ∧
    (sha3_padded []).length % BIT_RATE = 0 ∧
    ¬ sha3_assertion [] := by
  refine ⟨by decide, by decide, by decide⟩

/-- Claim C2: the claim says the absorb loop splits the padded input into
blocks of exactly 1088 bits (`BIT_RATE`).  The source iterates over
`padded.chunks(512)`: for the empty input the padded vector has 1088 bits
and the chunks have lengths 512, 512 and 64 — none equal to the rate, and
the loop body is an empty TODO stub besides. -/
theorem C2_blocks_not_rate_sized :
    (sha3_blocks []).map List.length = [512, 512, 64] ∧
    ¬ ∀ b ∈ sha3_blocks [], b.length = BIT_RATE := by
  refine ⟨by decide, by decide⟩

/-- Claim C3, counterexample: for the empty input (`L = 0`) the claimed
zero-fill count is `(1088 - 1 - 0 % 1088) % 1088 = 1087`, but `pad10_1`
appends only 1086 constant-false bits (the empty input contains no wires,
so every constant-false wire of the output is appended zero fill). -/
theorem C3_counterexample :
    ¬ ((pad10_1 []).countP (fun b => b == Boolean.constant false) =
        (1088 - 1 - (List.length ([] : List Boolean)) % 1088) % 1088) := by
  decide

/-- Claim C3, amended: the zero-fill count is
`(1088 - 2 - L % 1088) mod 1088` in integer arithmetic — equivalently
`(1088 - 1 - (L + 1) % 1088) % 1088`, the remainder being taken after the
first mandatory `'1'` bit is appended, which is what the source computes. -/
theorem C3_amended (input : List Boolean) :
    pad10_1 input = input ++ Boolean.constant true ::
      (List.replicate (((1088 - 2 - (input.length : Int) % 1088) % 1088).toNat)
          (Boolean.constant false) ++
        [Boolean.constant true]) := by
  have hz : zero_bits_to_append (input.length + 1) =
      (((1088 : Int) - 2 - (input.length : Int) % 1088) % 1088).toNat := by
    simp [zero_bits_to_append, BIT_RATE]
    omega
  rw [pad10_1_eq, hz]

/-- Claim C4, counterexample: for an input of exactly 1088 bits the
padded length is 2176, so `pad10_1` appends 1088 bits, not 2
(`L + 2 = 1090` does not land on the rate boundary). -/
theorem C4_counterexample :
    (pad10_1 (List.replicate 1088 (Boolean.constant false))).length ≠ 1088 + 2 := by
  rw [pad10_1_length]
  norm_num [zero_bits_to_append, BIT_RATE]

/-- Claim C4, amended: it is for an input of exactly 1086 bits (so that
`L + 2` lands on the rate boundary) that `pad10_1` appends exactly 2 bits,
the two constant-true bits adjacent with no zero fill between them. -/
theorem C4_amended (input : List Boolean) (h : input.length = 1086) :
    pad10_1 input = input ++ [Boolean.constant true, Boolean.constant true] := by
  rw [pad10_1_eq, h]
  norm_num [zero_bits_to_append, BIT_RATE]

/-- Witness for the amended claim C4 at a concrete 1086-bit input. -/
theorem C4_amended_witness :
    pad10_1 (List.replicate 1086 (Boolean.constant false)) =
      List.replicate 1086 (Boolean.constant false) ++
        [Boolean.constant true, Boolean.constant true] :=
  C4_amended (List.replicate 1086 (Boolean.constant false)) (by decide)

/-- Claim C5: the padded length is the smallest multiple of 1088 that is
at least `L + 2` — it is a multiple of `BIT_RATE`, at least `L + 2`, and
less than `L + 2 + 1088` (hence at most `L + 1089`). -/
theorem C5_padded_length (input : List Boolean) :
    (pad10_1 input).length % BIT_RATE = 0 ∧
    input.length + 2 ≤ (pad10_1 input).length ∧
    (pad10_1 input).length < input.length + 2 + BIT_RATE := by
  have h := pad10_1_length input
  simp [zero_bits_to_append, BIT_RATE] at h ⊢
  omega

/-- Claim C6: the bits `pad10_1` appends are one constant-true wire, then
zero or more constant-false wires, then one final constant-true wire, in
that exact order and nothing else. -/
theorem C6_pad_structure (input : List Boolean) :
    ∃ z : Nat, pad10_1 input =
      input ++ [Boolean.constant true] ++
        List.replicate z (Boolean.constant false) ++ [Boolean.constant true] := by
  exact ⟨zero_bits_to_append (input.length + 1), by rw [pad10_1_eq]; simp⟩

/-- Claim C7: the digest is an ordered sequence of exactly 256 bits for
every input length. -/
theorem C7_digest_length (input : List Bool) :
    (sha3Spec input).length = 256 := by
  simp [sha3Spec, squeeze]

/-- Claim C8: the claim says the digest of the empty input equals the
SHA3-256 hash of the empty byte string (`a7ffc6f8…`).  Running the sponge
on the source's padding of the empty input yields the Keccak-256 digest
(`c5d24601…`) instead, because `sha3` pads the raw message with pad10*1
only and never appends the SHA-3 domain-separation bits `01`; appending
those two bits before padding yields exactly the claimed vector. -/
theorem C8_empty_digest :
    sha3Spec [] = bytesToBits KECCAK_256_EMPTY_BYTES ∧
    sha3Spec [] ≠ bytesToBits SHA3_256_EMPTY_BYTES ∧
    sha3Spec [false, true] = bytesToBits SHA3_256_EMPTY_BYTES := by
  refine ⟨by decide, by decide, by decide⟩

/-- Claim C9: the round-constant table has exactly 24 entries, each a
64-bit value, entry 0 is 1 and entry 23 is `0x8000000080008008`, and the
whole table equals the standard's LFSR-derived round constants, one per
round index `0, …, 23`. -/
theorem C9_round_constants :
    ROUND_CONSTANTS.length = 24 ∧
    ROUND_CONSTANTS.all (fun c => c < 2 ^ 64) = true ∧
    ROUND_CONSTANTS.getD 0 0 = 0x0000000000000001 ∧
    ROUND_CONSTANTS.getD 23 0 = 0x8000000080008008 ∧
    ROUND_CONSTANTS = (List.range 24).map standardRoundConstant := by
  refine ⟨by decide, by decide, by decide, by decide, by decide⟩

/-- Claim C10: `pad10_1` only appends — the first `L` wires of its result
are exactly the input — and the vector `sha3` pads is the caller's input
followed by some suffix (the source pads a copy made with `to_vec`, the
input slice itself being immutable). -/
theorem C10_append_only (input : List Boolean) :
    (pad10_1 input).take input.length = input ∧
    ∃ suffix, sha3_padded input = input ++ suffix := by
  constructor
  · rw [pad10_1_eq]
    exact List.take_left' rfl
  · exact ⟨_, pad10_1_eq input⟩

end Sha3Gadget
